import Mathlib

/-!
Formalisation of the Portal AI backstage backend (src/backend/main.py).

The backend's pure logic is embedded shallowly: Python floats are modelled by
`PFloat` (NaN, the two infinities, or an exact rational value — every finite
IEEE double is an exact rational, and the only float operations the program
performs are comparisons, `abs`, and fixed-point rendering, all exact on this
model); Python strings by `String`; Python dicts by insertion-ordered
association lists with Python's assignment semantics (`dictSet`). The
environment-supplied effects (uuid4, utcnow) are passed to the store
operations as explicit arguments.
-/

namespace Portal

/-- Python float values relevant to this program: NaN, the infinities, or an
exact (rational) finite value. -/
inductive PFloat where
  | nan
  | inf
  | ninf
  | finite (q : ℚ)
deriving DecidableEq

/-- IEEE-754 strict less-than on Python floats: every comparison with NaN is
false; -inf is below and +inf above every non-NaN value. -/
def PFloat.lt : PFloat → PFloat → Bool
  | .nan, _ => false
  | _, .nan => false
  | .ninf, .ninf => false
  | .ninf, _ => true
  | _, .ninf => false
  | .inf, _ => false
  | .finite _, .inf => true
  | .finite p, .finite q => decide (p < q)

/-- Python abs on floats: abs(nan) = nan, abs(±inf) = inf. -/
def PFloat.abs : PFloat → PFloat
  | .nan => .nan
  | .inf => .inf
  | .ninf => .inf
  | .finite q => .finite |q|

/-- Round a rational to the nearest integer, ties to even: the rounding that
Python fixed-point formatting applies to the (exact) value of a float. -/
def roundHalfEven (q : ℚ) : ℤ :=
  if q - ⌊q⌋ < 1/2 then ⌊q⌋
  else if q - ⌊q⌋ > 1/2 then ⌊q⌋ + 1
  else if ⌊q⌋ % 2 = 0 then ⌊q⌋ else ⌊q⌋ + 1

/-- Fixed-point rendering of an exact rational to 3 decimal places, as the
Python format specifier .3f produces it on a finite float: round half to even
at the third decimal, sign taken from the value. -/
def formatFixed3 (q : ℚ) : String :=
  let m : Nat := (roundHalfEven (q * 1000)).natAbs
  let fracStr := toString (m % 1000)
  (if q < 0 then "-" else "") ++ toString (m / 1000) ++ "." ++
    String.mk (List.replicate (3 - fracStr.length) '0') ++ fracStr

/-- Rendering of a Python float by the format specifier .3f. -/
def fmtFloat3 : PFloat → String
  | .nan => "nan"
  | .inf => "inf"
  | .ninf => "-inf"
  | .finite q => formatFixed3 q

/-- Translation of synthetic_place_label (src/backend/main.py, lines 47-54). -/
def synthetic_place_label (lat lon : PFloat) : String :=
  let coastal := PFloat.lt lon.abs (.finite 20) || PFloat.lt lat.abs (.finite 15)
  let river_band := (PFloat.lt (.finite 36) lat && PFloat.lt lat (.finite 41)) &&
    (PFloat.lt (.finite (-10)) lon && PFloat.lt lon (.finite (-4)))
  if river_band then
    "Riverside bend near (" ++ fmtFloat3 lat ++ ", " ++ fmtFloat3 lon ++ ")"
  else if coastal then
    "Coastal fringe around (" ++ fmtFloat3 lat ++ ", " ++ fmtFloat3 lon ++ ")"
  else
    "Inland ridge near (" ++ fmtFloat3 lat ++ ", " ++ fmtFloat3 lon ++ ")"

/-- Python string slicing s[:n]: the first n characters (code points). -/
def pyTake (s : String) (n : Nat) : String := String.mk (s.data.take n)

/-- The thread records built by build_threads. -/
structure Thread where
  title : String
  summary : String
  support_level : String
  suggested_sources : List String
  verify_questions : List String
deriving DecidableEq

/-- The base_questions list local to build_threads (lines 61-65). -/
def base_questions : List String :=
  ["Who else keeps records of this place?",
   "What photos or maps could confirm details?",
   "Which community voices are missing here?"]

/-- First river_band thread (lines 68-76). -/
def riverThread1 : Thread :=
  { title := "River trade and tides",
    summary := "Merchant rafts once drifted here; floods rewrote paths and stories.",
    support_level := "supported",
    suggested_sources := ["Port records", "Oral histories", "Tide charts"],
    verify_questions := base_questions }

/-- Second river_band thread (lines 77-85). -/
def riverThread2 : Thread :=
  { title := "Bridge rumors",
    summary := "Locals speak of a temporary bridge that appeared only at low tide.",
    support_level := "likely",
    suggested_sources := ["Newspaper clippings", "Municipal minutes"],
    verify_questions := base_questions }

/-- First coastal thread (lines 87-95). -/
def coastalThread1 : Thread :=
  { title := "Salt wind archive",
    summary := "Fisher cooperatives indexed storms with shells strung above doorways.",
    support_level := "likely",
    suggested_sources := ["Family collections", "Weather logs"],
    verify_questions := base_questions }

/-- Second coastal thread (lines 96-104). -/
def coastalThread2 : Thread :=
  { title := "Ship graffiti",
    summary := "Hull markings carved by dockworkers doubled as secret navigation rhymes.",
    support_level := "speculative",
    suggested_sources := ["Harbor walls", "Retired sailors"],
    verify_questions := base_questions }

/-- First inland thread (lines 106-114). -/
def inlandThread1 : Thread :=
  { title := "Dry season crossings",
    summary := "Caravans cut through here when the marshes shrank; stones still mark the line.",
    support_level := "supported",
    suggested_sources := ["Trail maps", "Satellite imagery"],
    verify_questions := base_questions }

/-- Second inland thread (lines 115-123). -/
def inlandThread2 : Thread :=
  { title := "Songs against dust",
    summary := "Field choirs sang call-and-response to time irrigation releases.",
    support_level := "likely",
    suggested_sources := ["Local elders", "Radio archives"],
    verify_questions := base_questions }

/-- The note-dependent final thread (lines 125-133); its summary embeds
note[:80] in a fixed template. -/
def overlayThread (note : String) : Thread :=
  { title := "Overlay of legends",
    summary := "A traveler wrote about this spot in a note: '" ++ pyTake note 80 ++
      "...' and added their own myth.",
    support_level := "speculative",
    suggested_sources := ["Personal journals", "Community forums"],
    verify_questions := base_questions }

/-- Translation of build_threads (lines 57-134): the category pair chosen by
the same predicates as synthetic_place_label, then the overlay thread. -/
def build_threads (lat lon : PFloat) (note : String) : List Thread :=
  let is_coastal := PFloat.lt lon.abs (.finite 20) || PFloat.lt lat.abs (.finite 15)
  let river_band := (PFloat.lt (.finite 36) lat && PFloat.lt lat (.finite 41)) &&
    (PFloat.lt (.finite (-10)) lon && PFloat.lt lon (.finite (-4)))
  (if river_band then [riverThread1, riverThread2]
   else if is_coastal then [coastalThread1, coastalThread2]
   else [inlandThread1, inlandThread2]) ++ [overlayThread note]

/-- The response of the draft endpoint (lines 176-196). -/
structure DraftResult where
  draft : String
  output_type : String
  thread_title : String
deriving DecidableEq

/-- The fixed continuation appended to base for the micro-story output type
(lines 184-187). -/
def microContinuation : String :=
  ". A passerby pauses as wind drags the scent of metal and salt. Layers of rumor and record fold together in 140 words of compressed time."

/-- The fixed 3-step instruction text of the default branch (lines 191-195). -/
def scoreText : String :=
  "Score: (1) Map a path with footsteps, pause at every third stride. (2) Whisper the place name and your note. (3) Offer a gesture toward the nearest landmark."

/-- Translation of the draft endpoint handler (lines 176-196). -/
def draft (thread_title output_type note : String) : DraftResult :=
  let base := "From " ++ thread_title ++ ", your note hints: " ++ pyTake note 100
  let text :=
    if output_type = "micro-story" then base ++ microContinuation
    else if output_type = "postcard" then
      "Caption: " ++ base ++ ". Source note: drafted by the Portal AI backstage, please verify locally."
    else scoreText
  { draft := text, output_type := output_type, thread_title := thread_title }

/-- JSON-like values: the arbitrary field values of artifact records. -/
inductive JVal where
  | null
  | bool (b : Bool)
  | num (q : ℚ)
  | str (s : String)
  | arr (elems : List JVal)
  | obj (fields : List (String × JVal))

/-- A Python dict as an insertion-ordered association list. -/
abbrev Record := List (String × JVal)

/-- Python dict assignment d[k] = v on an insertion-ordered association list:
an existing binding is updated in place (its position kept), a new key is
appended at the end. -/
def dictSet {α : Type} : List (String × α) → String → α → List (String × α)
  | [], k, v => [(k, v)]
  | (k', v') :: rest, k, v =>
      if k' = k then (k, v) :: rest else (k', v') :: dictSet rest k v

/-- Python dict lookup d[k] on an insertion-ordered association list. -/
def dictGet {α : Type} : List (String × α) → String → Option α
  | [], _ => none
  | (k', v) :: rest, k => if k' = k then some v else dictGet rest k

/-- The in-memory artifact store (lines 22-44): its dict of items keyed by
artifact id, in insertion order. -/
structure ArtifactStore where
  items : List (String × Record)

/-- The store as constructed at line 44: empty. -/
def ArtifactStore.empty : ArtifactStore := ⟨[]⟩

/-- The record ArtifactStore.add stores and returns: the payload with its id
field set to the generated uuid and then its created_at field set to the
current timestamp (lines 30-31). -/
def augment (artifact_id now : String) (payload : Record) : Record :=
  dictSet (dictSet payload "id" (JVal.str artifact_id)) "created_at" (JVal.str now)

/-- Translation of ArtifactStore.add (lines 28-33); the uuid4 value and the
utcnow timestamp produced by the environment are passed as arguments. -/
def ArtifactStore.add (s : ArtifactStore) (artifact_id now : String)
    (payload : Record) : Record × ArtifactStore :=
  (augment artifact_id now payload,
   ⟨dictSet s.items artifact_id (augment artifact_id now payload)⟩)

/-- Translation of ArtifactStore.list (lines 35-36): the stored records in
insertion order. -/
def ArtifactStore.list (s : ArtifactStore) : List Record :=
  s.items.map Prod.snd

/-- Translation of ArtifactStore.get (lines 38-41): KeyError artifact_id when
the id is absent, the stored record otherwise. -/
def ArtifactStore.get (s : ArtifactStore) (artifact_id : String) :
    Except String Record :=
  match dictGet s.items artifact_id with
  | none => .error artifact_id
  | some r => .ok r

/-- An HTTP response of the artifact endpoints: a JSON body or an error
status with its detail message. -/
inductive HttpResponse where
  | ok (body : Record)
  | err (status : Nat) (detail : String)

/-- Translation of the get_artifact handler (lines 210-216): KeyError becomes
a 404 with a fixed message. The handler only reads the store, so the store is
returned unchanged next to the response. -/
def get_artifact (s : ArtifactStore) (artifact_id : String) :
    HttpResponse × ArtifactStore :=
  match s.get artifact_id with
  | .error _ => (.err 404 "Artifact not found", s)
  | .ok item => (.ok item, s)

/-- The store operations a process lifetime consists of (list and get do not
change the state, so a state trace is a list of add operations, each with the
uuid and timestamp the environment supplied). -/
inductive StoreOp where
  | add (artifact_id now : String) (payload : Record)

/-- The generated id of an add operation. -/
def StoreOp.opId : StoreOp → String
  | .add i _ _ => i

/-- The record an add operation stores. -/
def StoreOp.stored : StoreOp → Record
  | .add i now p => augment i now p

/-- Run a trace of store operations. -/
def runOps (s : ArtifactStore) : List StoreOp → ArtifactStore
  | [] => s
  | .add i now p :: ops => runOps (s.add i now p).2 ops

/-- The ids generated along a trace. -/
def opIds (ops : List StoreOp) : List String := ops.map StoreOp.opId

/-- The river_band predicate of the classifier: 36.0 < lat < 41.0 and
-10.0 < lon < -4.0 under IEEE comparisons (line 49 and line 60). -/
def river_band_pred (lat lon : PFloat) : Bool :=
  (PFloat.lt (.finite 36) lat && PFloat.lt lat (.finite 41)) &&
  (PFloat.lt (.finite (-10)) lon && PFloat.lt lon (.finite (-4)))

/-- The coastal predicate of the classifier: abs(lon) < 20 or abs(lat) < 15
under IEEE comparisons (line 48 and line 59). -/
def coastal_pred (lat lon : PFloat) : Bool :=
  PFloat.lt lon.abs (.finite 20) || PFloat.lt lat.abs (.finite 15)

/-- The classifier branches exactly on the two predicates, river_band first. -/
theorem label_cases (lat lon : PFloat) :
    synthetic_place_label lat lon =
      if river_band_pred lat lon then
        "Riverside bend near (" ++ fmtFloat3 lat ++ ", " ++ fmtFloat3 lon ++ ")"
      else if coastal_pred lat lon then
        "Coastal fringe around (" ++ fmtFloat3 lat ++ ", " ++ fmtFloat3 lon ++ ")"
      else
        "Inland ridge near (" ++ fmtFloat3 lat ++ ", " ++ fmtFloat3 lon ++ ")" := rfl

/-- The thread builder branches exactly on the same two predicates. -/
theorem build_threads_cases (lat lon : PFloat) (note : String) :
    build_threads lat lon note =
      (if river_band_pred lat lon then [riverThread1, riverThread2]
       else if coastal_pred lat lon then [coastalThread1, coastalThread2]
       else [inlandThread1, inlandThread2]) ++ [overlayThread note] := rfl

/-- The string s begins with the prefix p. -/
def beginsWith (p s : String) : Prop := ∃ t, s = p ++ t

/-- A string of the shape the labels have begins with its first component. -/
theorem beginsWith_head (p a b c : String) : beginsWith p (p ++ a ++ b ++ c) :=
  ⟨a ++ b ++ c, by simp [String.append_assoc]⟩

/-- Two strings with different first characters are not both prefixes of one
string: appending to the first cannot produce an extension of the second. -/
theorem not_beginsWith_of_head_ne (p1 p2 a b c : String) (c1 c2 : Char)
    (d1 d2 : List Char) (h1 : p1.data = c1 :: d1) (h2 : p2.data = c2 :: d2)
    (hc : c1 ≠ c2) : ¬ beginsWith p2 (p1 ++ a ++ b ++ c) := by
  rintro ⟨u, hu⟩
  have hd := congrArg String.data hu
  simp only [String.data_append, h1, h2, List.cons_append, List.append_assoc] at hd
  exact hc (List.cons.inj hd).1

/-- Looking up the key just set by a Python dict assignment gives the new
value. -/
theorem dictGet_dictSet_self {α : Type} (d : List (String × α)) (k : String)
    (v : α) : dictGet (dictSet d k v) k = some v := by
  induction d with
  | nil => simp [dictSet, dictGet]
  | cons p rest ih =>
      obtain ⟨k', v'⟩ := p
      by_cases h : k' = k
      · simp [dictSet, dictGet, h]
      · simp [dictSet, dictGet, h, ih]

/-- A Python dict assignment leaves every other key's binding unchanged. -/
theorem dictGet_dictSet_ne {α : Type} (d : List (String × α)) (k k1 : String)
    (v : α) (h : k1 ≠ k) : dictGet (dictSet d k v) k1 = dictGet d k1 := by
  induction d with
  | nil => simp [dictSet, dictGet, Ne.symm h]
  | cons p rest ih =>
      obtain ⟨k', v'⟩ := p
      by_cases hp : k' = k
      · have hk1 : k' ≠ k1 := by rw [hp]; exact Ne.symm h
        simp [dictSet, dictGet, hp, hk1, Ne.symm h]
      · by_cases hk1 : k' = k1
        · subst hk1
          simp [dictSet, dictGet, hp]
        · simp [dictSet, dictGet, hp, hk1, ih]

/-- Assigning a fresh key appends the binding at the end of the dict. -/
theorem dictSet_eq_append {α : Type} (d : List (String × α)) (k : String)
    (v : α) (h : ∀ p ∈ d, p.1 ≠ k) : dictSet d k v = d ++ [(k, v)] := by
  induction d with
  | nil => rfl
  | cons p rest ih =>
      obtain ⟨k', v'⟩ := p
      have hp : k' ≠ k := h (k', v') (by simp)
      simp only [dictSet, hp, if_false, List.cons_append, List.cons.injEq,
        true_and]
      exact ih fun q hq => h q (by simp [hq])

/-- A binding found in the front part of an association list is found in the
whole list. -/
theorem dictGet_append_some {α : Type} {l1 : List (String × α)}
    (l2 : List (String × α)) {k : String} {r : α}
    (h : dictGet l1 k = some r) : dictGet (l1 ++ l2) k = some r := by
  induction l1 with
  | nil => simp [dictGet] at h
  | cons p rest ih =>
      obtain ⟨k', v'⟩ := p
      by_cases hk : k' = k
      · simpa [dictGet, hk] using h
      · simp only [dictGet, hk, if_false, List.cons_append] at h ⊢
        exact ih h

/-- Running a trace of adds whose generated ids are fresh and pairwise
distinct appends the keyed stored records to the items, in trace order. -/
theorem runOps_items (ops : List StoreOp) (s : ArtifactStore)
    (hfresh : ∀ op ∈ ops, ∀ p ∈ s.items, p.1 ≠ op.opId)
    (hnodup : (opIds ops).Nodup) :
    (runOps s ops).items = s.items ++ ops.map (fun op => (op.opId, op.stored)) := by
  induction ops generalizing s with
  | nil => simp [runOps]
  | cons op rest ih =>
      cases op with
      | add i now p =>
          have hstep : ((s.add i now p).2).items = s.items ++ [(i, augment i now p)] :=
            dictSet_eq_append s.items i (augment i now p)
              (fun q hq => hfresh (.add i now p) (by simp) q hq)
          have hsplit : StoreOp.opId (.add i now p) ∉ opIds rest ∧ (opIds rest).Nodup := by
            have := hnodup
            simp only [opIds, List.map_cons, List.nodup_cons] at this
            exact this
          have hrest : ∀ op ∈ rest, ∀ q ∈ ((s.add i now p).2).items, q.1 ≠ op.opId := by
            intro op hop q hq
            rw [hstep] at hq
            rcases List.mem_append.mp hq with hq | hq
            · exact hfresh op (by simp [hop]) q hq
            · have hqi : q.1 = i := by
                simp only [List.mem_singleton] at hq
                rw [hq]
              rw [hqi]
              intro hop2
              apply hsplit.1
              rw [show StoreOp.opId (.add i now p) = i from rfl, hop2]
              exact List.mem_map_of_mem StoreOp.opId hop
          rw [runOps, ih ((s.add i now p).2) hrest hsplit.2, hstep]
          simp [StoreOp.opId, StoreOp.stored, List.append_assoc]

/-- The label when the river_band predicate holds. -/
theorem label_river (lat lon : PFloat) (h : river_band_pred lat lon = true) :
    synthetic_place_label lat lon =
      "Riverside bend near (" ++ fmtFloat3 lat ++ ", " ++ fmtFloat3 lon ++ ")" := by
  rw [label_cases, if_pos h]

/-- The label when river_band fails and the coastal predicate holds. -/
theorem label_coastal (lat lon : PFloat) (h1 : river_band_pred lat lon = false)
    (h2 : coastal_pred lat lon = true) :
    synthetic_place_label lat lon =
      "Coastal fringe around (" ++ fmtFloat3 lat ++ ", " ++ fmtFloat3 lon ++ ")" := by
  rw [label_cases, if_neg (by simp [h1]), if_pos h2]

/-- The label when both predicates fail. -/
theorem label_inland (lat lon : PFloat) (h1 : river_band_pred lat lon = false)
    (h2 : coastal_pred lat lon = false) :
    synthetic_place_label lat lon =
      "Inland ridge near (" ++ fmtFloat3 lat ++ ", " ++ fmtFloat3 lon ++ ")" := by
  rw [label_cases, if_neg (by simp [h1]), if_neg (by simp [h2])]

/-- The threads when the river_band predicate holds. -/
theorem threads_river (lat lon : PFloat) (note : String)
    (h : river_band_pred lat lon = true) :
    build_threads lat lon note = [riverThread1, riverThread2, overlayThread note] := by
  rw [build_threads_cases, if_pos h]
  rfl

/-- The threads when river_band fails and the coastal predicate holds. -/
theorem threads_coastal (lat lon : PFloat) (note : String)
    (h1 : river_band_pred lat lon = false) (h2 : coastal_pred lat lon = true) :
    build_threads lat lon note = [coastalThread1, coastalThread2, overlayThread note] := by
  rw [build_threads_cases, if_neg (by simp [h1]), if_pos h2]
  rfl

/-- The threads when both predicates fail. -/
theorem threads_inland (lat lon : PFloat) (note : String)
    (h1 : river_band_pred lat lon = false) (h2 : coastal_pred lat lon = false) :
    build_threads lat lon note = [inlandThread1, inlandThread2, overlayThread note] := by
  rw [build_threads_cases, if_neg (by simp [h1]), if_neg (by simp [h2])]
  rfl

/-- The last thread is always the overlay thread of the note. -/
theorem build_threads_getLast (lat lon : PFloat) (note : String) :
    (build_threads lat lon note).getLast? = some (overlayThread note) := by
  rw [build_threads_cases]
  cases river_band_pred lat lon <;> cases coastal_pred lat lon <;> rfl

/-- Claim C1: for every (lat, lon), if 36.0 < lat < 41.0 and -10.0 < lon < -4.0
then the classification is river_band and the label is the riverside sentence
with both coordinates formatted to 3 decimal places; otherwise coastal
(abs(lon) < 20 or abs(lat) < 15) gives the coastal sentence, and all remaining
inputs the inland sentence; river_band takes precedence over coastal. -/
theorem c1_classifier_labels (lat lon : PFloat) :
    (river_band_pred lat lon = true →
      synthetic_place_label lat lon =
        "Riverside bend near (" ++ fmtFloat3 lat ++ ", " ++ fmtFloat3 lon ++ ")") ∧
    (river_band_pred lat lon = false → coastal_pred lat lon = true →
      synthetic_place_label lat lon =
        "Coastal fringe around (" ++ fmtFloat3 lat ++ ", " ++ fmtFloat3 lon ++ ")") ∧
    (river_band_pred lat lon = false → coastal_pred lat lon = false →
      synthetic_place_label lat lon =
        "Inland ridge near (" ++ fmtFloat3 lat ++ ", " ++ fmtFloat3 lon ++ ")") :=
  ⟨label_river lat lon, label_coastal lat lon, label_inland lat lon⟩

/-- Witness for C1 at (37.0, -5.0), inside the river band. -/
theorem c1_classifier_labels_witness :
    river_band_pred (.finite 37) (.finite (-5)) = true ∧
    synthetic_place_label (.finite 37) (.finite (-5)) =
      "Riverside bend near (" ++ fmtFloat3 (.finite 37) ++ ", " ++
        fmtFloat3 (.finite (-5)) ++ ")" :=
  ⟨by decide, (c1_classifier_labels (.finite 37) (.finite (-5))).1 (by decide)⟩

/-- The first two titles of a three-element thread list are the titles of its
first two threads; so they differ from any pair they provably differ from. -/
theorem take_two_titles_ne (t1 t2 t3 : Thread) (l : List String)
    (h : [t1.title, t2.title] ≠ l) :
    ¬ (List.map Thread.title [t1, t2, t3]).take 2 = l := fun he => h he

/-- Claim C2: the place category the thread builder uses agrees with the
category the label function uses — the label begins with the riverside,
coastal or inland sentence exactly when the thread list begins with the
matching fixed pair of threads, for every note. -/
theorem c2_category_agreement (lat lon : PFloat) (note : String) :
    (beginsWith "Riverside bend near (" (synthetic_place_label lat lon) ↔
      ((build_threads lat lon note).map Thread.title).take 2 =
        ["River trade and tides", "Bridge rumors"]) ∧
    (beginsWith "Coastal fringe around (" (synthetic_place_label lat lon) ↔
      ((build_threads lat lon note).map Thread.title).take 2 =
        ["Salt wind archive", "Ship graffiti"]) ∧
    (beginsWith "Inland ridge near (" (synthetic_place_label lat lon) ↔
      ((build_threads lat lon note).map Thread.title).take 2 =
        ["Dry season crossings", "Songs against dust"]) := by
  cases hr : river_band_pred lat lon with
  | true =>
      rw [label_river lat lon hr, threads_river lat lon note hr]
      exact ⟨iff_of_true (beginsWith_head _ _ _ _) rfl,
        iff_of_false
          (not_beginsWith_of_head_ne _ _ _ _ _ 'R' 'C' _ _ rfl rfl (by decide))
          (take_two_titles_ne _ _ _ _ (by decide)),
        iff_of_false
          (not_beginsWith_of_head_ne _ _ _ _ _ 'R' 'I' _ _ rfl rfl (by decide))
          (take_two_titles_ne _ _ _ _ (by decide))⟩
  | false =>
      cases hc : coastal_pred lat lon with
      | true =>
          rw [label_coastal lat lon hr hc, threads_coastal lat lon note hr hc]
          exact ⟨iff_of_false
              (not_beginsWith_of_head_ne _ _ _ _ _ 'C' 'R' _ _ rfl rfl (by decide))
              (take_two_titles_ne _ _ _ _ (by decide)),
            iff_of_true (beginsWith_head _ _ _ _) rfl,
            iff_of_false
              (not_beginsWith_of_head_ne _ _ _ _ _ 'C' 'I' _ _ rfl rfl (by decide))
              (take_two_titles_ne _ _ _ _ (by decide))⟩
      | false =>
          rw [label_inland lat lon hr hc, threads_inland lat lon note hr hc]
          exact ⟨iff_of_false
              (not_beginsWith_of_head_ne _ _ _ _ _ 'I' 'R' _ _ rfl rfl (by decide))
              (take_two_titles_ne _ _ _ _ (by decide)),
            iff_of_false
              (not_beginsWith_of_head_ne _ _ _ _ _ 'I' 'C' _ _ rfl rfl (by decide))
              (take_two_titles_ne _ _ _ _ (by decide)),
            iff_of_true (beginsWith_head _ _ _ _) rfl⟩

/-- Claim C3: build_threads always returns exactly 3 threads — the fixed pair
for the category per the lookup table, then the thread titled "Overlay of
legends" — and all three carry the same fixed verify_questions list of exactly
three fixed strings. -/
theorem c3_threads_structure (lat lon : PFloat) (note : String) :
    (build_threads lat lon note).length = 3 ∧
    (river_band_pred lat lon = true →
      (build_threads lat lon note).take 2 = [riverThread1, riverThread2]) ∧
    (river_band_pred lat lon = false → coastal_pred lat lon = true →
      (build_threads lat lon note).take 2 = [coastalThread1, coastalThread2]) ∧
    (river_band_pred lat lon = false → coastal_pred lat lon = false →
      (build_threads lat lon note).take 2 = [inlandThread1, inlandThread2]) ∧
    riverThread1.title = "River trade and tides" ∧
    riverThread1.support_level = "supported" ∧
    riverThread2.title = "Bridge rumors" ∧
    riverThread2.support_level = "likely" ∧
    coastalThread1.title = "Salt wind archive" ∧
    coastalThread1.support_level = "likely" ∧
    coastalThread2.title = "Ship graffiti" ∧
    coastalThread2.support_level = "speculative" ∧
    inlandThread1.title = "Dry season crossings" ∧
    inlandThread1.support_level = "supported" ∧
    inlandThread2.title = "Songs against dust" ∧
    inlandThread2.support_level = "likely" ∧
    (build_threads lat lon note).getLast?.map Thread.title = some "Overlay of legends" ∧
    (∀ t ∈ build_threads lat lon note, t.verify_questions = base_questions) ∧
    base_questions.length = 3 := by
  have hlen : (build_threads lat lon note).length = 3 := by
    rw [build_threads_cases]
    cases river_band_pred lat lon <;> cases coastal_pred lat lon <;> rfl
  have hlast : (build_threads lat lon note).getLast?.map Thread.title =
      some "Overlay of legends" := by
    rw [build_threads_getLast]
    rfl
  have hvq : ∀ t ∈ build_threads lat lon note, t.verify_questions = base_questions := by
    rw [build_threads_cases]
    cases river_band_pred lat lon <;> cases coastal_pred lat lon <;>
      · intro t ht
        simp only [List.append_eq, List.cons_append, List.nil_append, if_true,
          if_false, List.mem_cons, List.not_mem_nil, or_false, Bool.false_eq_true,
          List.mem_singleton] at ht
        rcases ht with rfl | rfl | rfl <;> rfl
  refine ⟨hlen, fun h => ?_, fun h1 h2 => ?_, fun h1 h2 => ?_, rfl, rfl, rfl, rfl,
    rfl, rfl, rfl, rfl, rfl, rfl, rfl, rfl, hlast, hvq, rfl⟩
  · rw [threads_river lat lon note h]
    rfl
  · rw [threads_coastal lat lon note h1 h2]
    rfl
  · rw [threads_inland lat lon note h1 h2]
    rfl

/-- Witness for C3 at (37.0, -5.0) in the river band with a concrete note. -/
theorem c3_threads_structure_witness :
    river_band_pred (.finite 37) (.finite (-5)) = true ∧
    (build_threads (.finite 37) (.finite (-5)) "n").take 2 = [riverThread1, riverThread2] :=
  ⟨by decide, (c3_threads_structure (.finite 37) (.finite (-5)) "n").2.1 (by decide)⟩

/-- Claim C4: the summary of the "Overlay of legends" thread embeds exactly the
first min(len(note), 80) characters of the note verbatim in a fixed sentence
template; a note shorter than 80 characters appears whole. -/
theorem c4_overlay_note_embedding (lat lon : PFloat) (note : String) :
    ∃ t, (build_threads lat lon note).getLast? = some t ∧
      t.summary = "A traveler wrote about this spot in a note: '" ++ pyTake note 80 ++
        "...' and added their own myth." ∧
      (pyTake note 80).length = min note.length 80 ∧
      List.IsPrefix (pyTake note 80).data note.data ∧
      (note.length < 80 → pyTake note 80 = note) := by
  refine ⟨overlayThread note, build_threads_getLast lat lon note, rfl, ?_, ?_, ?_⟩
  · show (note.data.take 80).length = min note.length 80
    rw [List.length_take, Nat.min_comm]
    rfl
  · exact List.take_prefix 80 note.data
  · intro h
    unfold pyTake
    rw [List.take_of_length_le (le_of_lt h)]

/-- Witness for C4 with the short note "hi". -/
theorem c4_overlay_note_embedding_witness :
    ("hi".length < 80) ∧ pyTake "hi" 80 = "hi" := by
  obtain ⟨t, h1, h2, h3, h4, h5⟩ :=
    c4_overlay_note_embedding (.finite 0) (.finite 0) "hi"
  exact ⟨by decide, h5 (by decide)⟩

/-- Claim C5: the draft composer returns the base text plus the fixed
continuation for output_type exactly "micro-story", the captioned base text for
exactly "postcard", and the fixed 3-step Score text — independent of note and
thread_title — for every other output_type, case-sensitively. -/
theorem c5_draft_compose (thread_title output_type note : String) :
    (output_type = "micro-story" →
      (draft thread_title output_type note).draft =
        "From " ++ thread_title ++ ", your note hints: " ++ pyTake note 100 ++
          microContinuation) ∧
    (output_type = "postcard" →
      (draft thread_title output_type note).draft =
        "Caption: " ++ ("From " ++ thread_title ++ ", your note hints: " ++
          pyTake note 100) ++
          ". Source note: drafted by the Portal AI backstage, please verify locally.") ∧
    (output_type ≠ "micro-story" → output_type ≠ "postcard" →
      (draft thread_title output_type note).draft = scoreText) := by
  refine ⟨fun h => ?_, fun h => ?_, fun h1 h2 => ?_⟩
  · simp [draft, h]
  · simp [draft, h]
  · simp [draft, h1, h2]

/-- Witness for C5 at thread_title "T" and note "hello", one per branch. -/
theorem c5_draft_compose_witness :
    (draft "T" "micro-story" "hello").draft =
      "From " ++ "T" ++ ", your note hints: " ++ pyTake "hello" 100 ++
        microContinuation ∧
    (draft "T" "postcard" "hello").draft =
      "Caption: " ++ ("From " ++ "T" ++ ", your note hints: " ++ pyTake "hello" 100) ++
        ". Source note: drafted by the Portal AI backstage, please verify locally." ∧
    (draft "T" "score" "hello").draft = scoreText :=
  ⟨(c5_draft_compose "T" "micro-story" "hello").1 rfl,
   (c5_draft_compose "T" "postcard" "hello").2.1 rfl,
   (c5_draft_compose "T" "score" "hello").2.2 (by decide) (by decide)⟩

/-- Claim C6: add returns the caller record with exactly the id field set to
the freshly generated identifier and the created_at field set to the supplied
timestamp (both overwriting any caller-supplied value), every other field kept,
and a subsequent get of the returned id yields that same augmented record. -/
theorem c6_add_get_roundtrip (s : ArtifactStore) (artifact_id now : String)
    (r : Record) :
    dictGet (s.add artifact_id now r).1 "id" = some (JVal.str artifact_id) ∧
    dictGet (s.add artifact_id now r).1 "created_at" = some (JVal.str now) ∧
    (∀ k, k ≠ "id" → k ≠ "created_at" →
      dictGet (s.add artifact_id now r).1 k = dictGet r k) ∧
    (s.add artifact_id now r).2.get artifact_id = .ok (s.add artifact_id now r).1 := by
  refine ⟨?_, ?_, ?_, ?_⟩
  · show dictGet (dictSet (dictSet r "id" (JVal.str artifact_id)) "created_at"
      (JVal.str now)) "id" = some (JVal.str artifact_id)
    rw [dictGet_dictSet_ne _ _ _ _ (by decide), dictGet_dictSet_self]
  · show dictGet (dictSet (dictSet r "id" (JVal.str artifact_id)) "created_at"
      (JVal.str now)) "created_at" = some (JVal.str now)
    rw [dictGet_dictSet_self]
  · intro k h1 h2
    show dictGet (dictSet (dictSet r "id" (JVal.str artifact_id)) "created_at"
      (JVal.str now)) k = dictGet r k
    rw [dictGet_dictSet_ne _ _ _ _ h2, dictGet_dictSet_ne _ _ _ _ h1]
  · show ArtifactStore.get ⟨dictSet s.items artifact_id (augment artifact_id now r)⟩
      artifact_id = Except.ok (augment artifact_id now r)
    unfold ArtifactStore.get
    rw [dictGet_dictSet_self]

/-- Witness for C6: adding the record with one field x to the empty store. -/
theorem c6_add_get_roundtrip_witness :
    dictGet (ArtifactStore.empty.add "u1" "t1" [("x", JVal.num 1)]).1 "x" =
      some (JVal.num 1) ∧
    dictGet (ArtifactStore.empty.add "u1" "t1" [("x", JVal.num 1)]).1 "id" =
      some (JVal.str "u1") ∧
    (ArtifactStore.empty.add "u1" "t1" [("x", JVal.num 1)]).2.get "u1" =
      .ok (ArtifactStore.empty.add "u1" "t1" [("x", JVal.num 1)]).1 := by
  obtain ⟨h1, h2, h3, h4⟩ :=
    c6_add_get_roundtrip ArtifactStore.empty "u1" "t1" [("x", JVal.num 1)]
  refine ⟨?_, h1, h4⟩
  rw [h3 "x" (by decide) (by decide)]
  rfl

/-- Claim C7: get fails (with a KeyError carrying the id) exactly when the id
is absent, the handler maps that failure to a 404 with the fixed message and
returns the stored artifact otherwise, and the call leaves the store
unchanged. -/
theorem c7_get_absent_404 (s : ArtifactStore) (artifact_id : String) :
    ((∃ e, s.get artifact_id = .error e) ↔ dictGet s.items artifact_id = none) ∧
    (get_artifact s artifact_id).2 = s ∧
    (dictGet s.items artifact_id = none →
      (get_artifact s artifact_id).1 = .err 404 "Artifact not found") ∧
    (∀ r, dictGet s.items artifact_id = some r →
      s.get artifact_id = .ok r ∧ (get_artifact s artifact_id).1 = .ok r) := by
  unfold get_artifact ArtifactStore.get
  cases h : dictGet s.items artifact_id with
  | none => simp [h]
  | some r => simp [h]

/-- Witness for C7: a missing id on the empty store and a present id. -/
theorem c7_get_absent_404_witness :
    (get_artifact ArtifactStore.empty "missing").1 = .err 404 "Artifact not found" ∧
    (get_artifact ⟨[("k1", [("x", JVal.null)])]⟩ "k1").1 = .ok [("x", JVal.null)] :=
  ⟨(c7_get_absent_404 ArtifactStore.empty "missing").2.2.1 rfl,
   ((c7_get_absent_404 ⟨[("k1", [("x", JVal.null)])]⟩ "k1").2.2.2
     [("x", JVal.null)] rfl).2⟩

/-- Claim C8: over a whole process lifetime (a trace of adds whose generated
uuids are distinct, the spec's collision-freedom assumption), the stored items
are exactly the augmented records keyed by their ids in insertion order, the
stored ids are pairwise distinct, an artifact once stored is never mutated or
deleted by later operations, and list returns the stored artifacts in
insertion order (and, being pure, is stable across calls). -/
theorem c8_store_invariants (ops : List StoreOp) (h : (opIds ops).Nodup) :
    (runOps ArtifactStore.empty ops).items =
      ops.map (fun op => (op.opId, op.stored)) ∧
    ((runOps ArtifactStore.empty ops).items.map Prod.fst).Nodup ∧
    (∀ pre post, ops = pre ++ post → ∀ k r,
      dictGet (runOps ArtifactStore.empty pre).items k = some r →
      dictGet (runOps ArtifactStore.empty ops).items k = some r) ∧
    (runOps ArtifactStore.empty ops).list = ops.map StoreOp.stored := by
  have hempty : ∀ op ∈ ops, ∀ p ∈ ArtifactStore.empty.items, p.1 ≠ op.opId := by
    intro op _ p hp
    simp [ArtifactStore.empty] at hp
  have hitems : (runOps ArtifactStore.empty ops).items =
      ops.map (fun op => (op.opId, op.stored)) := by
    have hh := runOps_items ops ArtifactStore.empty hempty h
    simpa [ArtifactStore.empty] using hh
  refine ⟨hitems, ?_, ?_, ?_⟩
  · rw [hitems, List.map_map]
    exact h
  · intro pre post hsplit k r hk
    subst hsplit
    have hpre : (opIds pre).Nodup := by
      rw [opIds, List.map_append] at h
      exact h.of_append_left
    have hpreempty : ∀ op ∈ pre, ∀ p ∈ ArtifactStore.empty.items, p.1 ≠ op.opId := by
      intro op _ p hp
      simp [ArtifactStore.empty] at hp
    have hpreitems := runOps_items pre ArtifactStore.empty hpreempty hpre
    rw [hitems, List.map_append]
    rw [hpreitems] at hk
    simp only [ArtifactStore.empty, List.nil_append] at hk
    exact dictGet_append_some _ hk
  · rw [ArtifactStore.list, hitems, List.map_map]
    rfl

/-- Witness for C8: a two-add trace with distinct generated ids. -/
theorem c8_store_invariants_witness :
    (opIds [StoreOp.add "a" "t1" [], StoreOp.add "b" "t2" [("x", JVal.null)]]).Nodup ∧
    (runOps ArtifactStore.empty
        [StoreOp.add "a" "t1" [], StoreOp.add "b" "t2" [("x", JVal.null)]]).list =
      [StoreOp.stored (.add "a" "t1" []), StoreOp.stored (.add "b" "t2" [("x", JVal.null)])] := by
  refine ⟨by decide, ?_⟩
  have hh := (c8_store_invariants
    [StoreOp.add "a" "t1" [], StoreOp.add "b" "t2" [("x", JVal.null)]] (by decide)).2.2.2
  rw [hh]
  rfl

/-- Claim C9: the overlay summary is exactly the fixed template with a
three-dot ellipsis following the embedded note slice for every note, also when
the note is shorter than 80 characters — so two notes with the same first 80
characters produce identical summaries and a truncated note cannot be told
from a complete one. -/
theorem c9_overlay_ellipsis_always (lat lon : PFloat) (note : String) :
    ∃ t, (build_threads lat lon note).getLast? = some t ∧
      t.summary = "A traveler wrote about this spot in a note: '" ++ pyTake note 80 ++
        "...' and added their own myth." ∧
      (∀ note2, pyTake note2 80 = pyTake note 80 →
        ∃ t2, (build_threads lat lon note2).getLast? = some t2 ∧
          t2.summary = t.summary) := by
  refine ⟨overlayThread note, build_threads_getLast lat lon note, rfl, ?_⟩
  intro note2 h2
  refine ⟨overlayThread note2, build_threads_getLast lat lon note2, ?_⟩
  simp [overlayThread, h2]

/-- Witness for C9: a note of exactly 80 characters and an 81-character
extension of it are rendered identically. -/
theorem c9_overlay_ellipsis_always_witness :
    pyTake (String.mk (List.replicate 81 'a')) 80 =
      pyTake (String.mk (List.replicate 80 'a')) 80 ∧
    ∃ t2, (build_threads (.finite 0) (.finite 0)
        (String.mk (List.replicate 81 'a'))).getLast? = some t2 ∧
      t2.summary = "A traveler wrote about this spot in a note: '" ++
        pyTake (String.mk (List.replicate 80 'a')) 80 ++
        "...' and added their own myth." := by
  obtain ⟨t, h1, h2, h3⟩ := c9_overlay_ellipsis_always (.finite 0) (.finite 0)
    (String.mk (List.replicate 80 'a'))
  refine ⟨by decide, ?_⟩
  obtain ⟨t2, g1, g2⟩ := h3 (String.mk (List.replicate 81 'a')) (by decide)
  refine ⟨t2, g1, ?_⟩
  rw [g2, h2]

/-- Claim C10 as stated is false on the code: the coastal predicate is a
disjunction evaluated per coordinate, so lat = NaN with lon = 5.0 still
classifies as coastal (abs(5.0) < 20), not inland. -/
theorem c10_nan_counterexample :
    coastal_pred PFloat.nan (.finite 5) = true ∧
    synthetic_place_label PFloat.nan (.finite 5) =
      "Coastal fringe around (" ++ fmtFloat3 PFloat.nan ++ ", " ++
        fmtFloat3 (.finite 5) ++ ")" ∧
    ¬ beginsWith "Inland ridge near (" (synthetic_place_label PFloat.nan (.finite 5)) ∧
    ((build_threads PFloat.nan (.finite 5) "").map Thread.title).take 2 =
      ["Salt wind archive", "Ship graffiti"] := by
  refine ⟨by decide, label_coastal _ _ (by decide) (by decide), ?_, ?_⟩
  · rw [label_coastal _ _ (by decide) (by decide)]
    exact not_beginsWith_of_head_ne _ _ _ _ _ 'C' 'I' _ _ rfl rfl (by decide)
  · rw [threads_coastal _ _ _ (by decide) (by decide)]
    rfl

/-- Claim C10 amended: a NaN in either coordinate falsifies the river_band
predicate (it needs both coordinates); but the coastal predicate only loses
the NaN coordinate's disjunct, so the classification is inland exactly when
the remaining comparisons also fail — in particular when both coordinates are
NaN, both predicates are false and label and threads are the inland ones. -/
theorem c10_nan_classification (lat lon : PFloat) :
    ((lat = PFloat.nan ∨ lon = PFloat.nan) → river_band_pred lat lon = false) ∧
    (lat = PFloat.nan → lon = PFloat.nan →
      coastal_pred lat lon = false ∧
      synthetic_place_label lat lon =
        "Inland ridge near (" ++ fmtFloat3 lat ++ ", " ++ fmtFloat3 lon ++ ")" ∧
      ∀ note, (build_threads lat lon note).map Thread.title =
        ["Dry season crossings", "Songs against dust", "Overlay of legends"]) := by
  constructor
  · rintro (rfl | rfl) <;> simp [river_band_pred, PFloat.lt]
  · rintro rfl rfl
    refine ⟨by decide, label_inland _ _ (by decide) (by decide), ?_⟩
    intro note
    rw [threads_inland _ _ _ (by decide) (by decide)]
    rfl

/-- Witness for the amended C10 at lat = lon = NaN. -/
theorem c10_nan_classification_witness :
    river_band_pred PFloat.nan PFloat.nan = false ∧
    coastal_pred PFloat.nan PFloat.nan = false ∧
    (build_threads PFloat.nan PFloat.nan "n").map Thread.title =
      ["Dry season crossings", "Songs against dust", "Overlay of legends"] := by
  obtain ⟨h1, h2⟩ := c10_nan_classification PFloat.nan PFloat.nan
  obtain ⟨hc, _, ht⟩ := h2 rfl rfl
  exact ⟨h1 (Or.inl rfl), hc, ht "n"⟩

end Portal
